import Mathlib

/-!
Verification development for the FerreApp product API (`app/main.py`).

The file shallowly embeds the validation-and-mapping layer of the service:

* Python string primitives (`str.strip`, `str.upper`, `len`) over `String`
  (`List Char`), restricted to ASCII, which covers every string the claims
  and the repository use;
* the Pydantic model `ProductoBase` with its declared `Field` constraints
  (`min_length`/`max_length`/`ge`, applied to the raw value) followed by the
  three `@field_validator`s (`validar_nombre_categoria`, `validar_codigo_sku`,
  `validar_descripcion`), which in Pydantic v2 run *after* the constraints;
* the lenient read model `ProductoDB` and the adapter `map_rows_to_productos`;
* the five request handlers, written against an oracle for the persistence
  collaborator (`fetch_all`, `fetch_by_id`, `insert`, `update`, `delete`):
  each handler takes the value the store would return at each of its call
  sites and produces its HTTP outcome together with the ordered trace of
  store calls it actually issued.  FastAPI behaviour that surrounds the
  handler body is embedded explicitly: request-body validation before the
  handler runs (422 on failure, no handler execution) and `response_model`
  re-validation of the returned value (500 on failure).

Numeric modelling: Python `float` and `Decimal` are both represented by `ℚ`
and the coercion `float(Decimal)` by the identity on the rational value; the
claims under study only compare prices for sign and pass them through, so no
rounding behaviour is relied upon.
-/

namespace FerreApp

/-- ASCII whitespace as recognised by Python's `str.strip` / `str.isspace`:
space, tab, newline, carriage return, vertical tab, form feed. -/
def isPySpace (c : Char) : Bool :=
  c == ' ' || c == '\t' || c == '\n' || c == '\r' || c == '\x0b' || c == '\x0c'

/-- Python `str.strip()` on the character list: drop whitespace from the
front, then from the back. -/
def pyStripList (l : List Char) : List Char :=
  (l.dropWhile isPySpace).rdropWhile isPySpace

/-- Python `str.strip()`. -/
def pyStrip (s : String) : String :=
  ⟨pyStripList s.data⟩

/-- Python `str.upper()` on one character (ASCII range; characters outside
`a`–`z` are returned unchanged, matching Python on ASCII input). -/
def pyToUpper (c : Char) : Char :=
  match c with
  | 'a' => 'A' | 'b' => 'B' | 'c' => 'C' | 'd' => 'D' | 'e' => 'E'
  | 'f' => 'F' | 'g' => 'G' | 'h' => 'H' | 'i' => 'I' | 'j' => 'J'
  | 'k' => 'K' | 'l' => 'L' | 'm' => 'M' | 'n' => 'N' | 'o' => 'O'
  | 'p' => 'P' | 'q' => 'Q' | 'r' => 'R' | 's' => 'S' | 't' => 'T'
  | 'u' => 'U' | 'v' => 'V' | 'w' => 'W' | 'x' => 'X' | 'y' => 'Y'
  | 'z' => 'Z'
  | other => other

/-- Python `str.upper()`. -/
def pyUpper (s : String) : String :=
  ⟨s.data.map pyToUpper⟩

/-- The 26 lower/upper ASCII letter pairs handled by `pyToUpper`. -/
def upperPairs : List (Char × Char) :=
  [('a','A'), ('b','B'), ('c','C'), ('d','D'), ('e','E'), ('f','F'), ('g','G'),
   ('h','H'), ('i','I'), ('j','J'), ('k','K'), ('l','L'), ('m','M'), ('n','N'),
   ('o','O'), ('p','P'), ('q','Q'), ('r','R'), ('s','S'), ('t','T'), ('u','U'),
   ('v','V'), ('w','W'), ('x','X'), ('y','Y'), ('z','Z')]

/-- The field bundle shared by `ProductoBase`, `ProductoCreate` and
`ProductoUpdate` (`app/main.py` lines 19–27): `nombre`, `descripcion`,
`precio`, `stock`, `categoria`, `codigo_sku`, `activo`. -/
structure ProductoFields where
  nombre : String
  descripcion : Option String := none
  precio : ℚ
  stock : Int
  categoria : String
  codigo_sku : String
  activo : Bool := true
deriving DecidableEq, Repr

/-- `validar_nombre_categoria` (`app/main.py` lines 29–35): rejects an empty
or whitespace-only value, otherwise returns the trimmed value. -/
def validar_nombre_categoria (v : String) : Option String :=
  if v = "" ∨ pyStrip v = "" then none else some (pyStrip v)

/-- `validar_codigo_sku` (`app/main.py` lines 37–44): trims and upper-cases,
rejecting when the result is empty. -/
def validar_codigo_sku (v : String) : Option String :=
  let v2 := pyUpper (pyStrip v)
  if v2 = "" then none else some v2

/-- `validar_descripcion` (`app/main.py` lines 46–52): `None` or a
whitespace-only value normalises to `None`; anything else is trimmed.  The
validator itself never rejects. -/
def validar_descripcion (v : Option String) : Option (Option String) :=
  match v with
  | none => some none
  | some s => if pyStrip s = "" then some none else some (some (pyStrip s))

/-- Field pipeline for `nombre`: the `Field(min_length=1, max_length=80)`
constraint on the raw string, then `validar_nombre_categoria` (Pydantic v2
runs annotated constraints before an after-mode validator). -/
def validarNombreCampo (v : String) : Option String :=
  if 1 ≤ v.length ∧ v.length ≤ 80 then validar_nombre_categoria v else none

/-- Field pipeline for `categoria`: `Field(min_length=1, max_length=50)` on
the raw string, then `validar_nombre_categoria`. -/
def validarCategoriaCampo (v : String) : Option String :=
  if 1 ≤ v.length ∧ v.length ≤ 50 then validar_nombre_categoria v else none

/-- Field pipeline for `codigo_sku`: `Field(min_length=1, max_length=20)` on
the raw string, then `validar_codigo_sku`. -/
def validarCodigoSkuCampo (v : String) : Option String :=
  if 1 ≤ v.length ∧ v.length ≤ 20 then validar_codigo_sku v else none

/-- Field pipeline for `descripcion`: `None` bypasses the string constraint,
a present string is checked against `Field(max_length=255)` (raw length)
before `validar_descripcion` runs. -/
def validarDescripcionCampo (v : Option String) : Option (Option String) :=
  match v with
  | none => validar_descripcion none
  | some s => if s.length ≤ 255 then validar_descripcion (some s) else none

/-- Field pipeline for `precio`: `Field(ge=0)`. -/
def validarPrecioCampo (v : ℚ) : Option ℚ :=
  if 0 ≤ v then some v else none

/-- Field pipeline for `stock`: `Field(ge=0)`. -/
def validarStockCampo (v : Int) : Option Int :=
  if 0 ≤ v then some v else none

/-- Construction of a `ProductoBase` instance: every field runs its
constraint-plus-validator pipeline; the instance exists exactly when all
fields pass, and holds the normalised values. -/
def validarProductoBase (p : ProductoFields) : Option ProductoFields :=
  match validarNombreCampo p.nombre, validarDescripcionCampo p.descripcion,
        validarPrecioCampo p.precio, validarStockCampo p.stock,
        validarCategoriaCampo p.categoria, validarCodigoSkuCampo p.codigo_sku with
  | some n, some d, some pr, some st, some cat, some sku =>
      some { nombre := n, descripcion := d, precio := pr, stock := st,
             categoria := cat, codigo_sku := sku, activo := p.activo }
  | _, _, _, _, _, _ => none

/-- The lenient read model `ProductoDB` (`app/main.py` lines 55–64): the same
columns plus `id_producto`, with no content constraints. -/
structure ProductoDB where
  id_producto : Int
  nombre : String
  descripcion : Option String := none
  precio : ℚ
  stock : Int
  categoria : String
  codigo_sku : String
  activo : Bool
deriving DecidableEq, Repr

/-- The field bundle of a `ProductoDB` value, as handed to the strict
`Producto` output model. -/
def ProductoDB.campos (db : ProductoDB) : ProductoFields :=
  { nombre := db.nombre, descripcion := db.descripcion, precio := db.precio,
    stock := db.stock, categoria := db.categoria, codigo_sku := db.codigo_sku,
    activo := db.activo }

/-- The strict output model `Producto` (`app/main.py` lines 77–79):
`ProductoBase` plus the assigned id. -/
structure Producto where
  id_producto : Int
  campos : ProductoFields
deriving DecidableEq, Repr

/-- A raw Python value as it can appear in the `activo` column of a fetched
row, together with Python truthiness. -/
inductive PyVal where
  | pynone
  | pybool (b : Bool)
  | pyint (i : Int)
  | pystr (s : String)
deriving DecidableEq, Repr

/-- Python `bool(...)` truthiness on a raw value. -/
def PyVal.truthy : PyVal → Bool
  | .pynone => false
  | .pybool b => b
  | .pyint i => i != 0
  | .pystr s => s != ""

/-- The raw `precio` column value: either a `Decimal` or already a float.
Both carry their numeric value as a rational. -/
inductive PrecioRaw where
  | dec (q : ℚ)
  | flt (q : ℚ)
deriving DecidableEq, Repr

/-- `float(Decimal(...))`, modelled as the identity on the numeric value. -/
def floatOfDecimal (q : ℚ) : ℚ := q

/-- One raw row of `SELECT * FROM producto` as the persistence layer hands it
to the core: typed columns, with `precio` possibly a `Decimal` and `activo`
possibly absent or any raw value (`row.get("activo", False)`). -/
structure Row where
  id_producto : Int
  nombre : String
  descripcion : Option String := none
  precio : PrecioRaw
  stock : Int
  categoria : String
  codigo_sku : String
  activo : Option PyVal := none
deriving DecidableEq, Repr

/-- The per-row body of `map_rows_to_productos` (`app/main.py` lines 93–106):
coerce a `Decimal` price to float, coerce `activo` through `bool` with absent
defaulting to `False`, pass every other column through into `ProductoDB`. -/
def rowToProductoDB (row : Row) : ProductoDB :=
  { id_producto := row.id_producto
    nombre := row.nombre
    descripcion := row.descripcion
    precio := match row.precio with
      | .dec q => floatOfDecimal q
      | .flt q => q
    stock := row.stock
    categoria := row.categoria
    codigo_sku := row.codigo_sku
    activo := match row.activo with
      | none => false
      | some v => v.truthy }

/-- `map_rows_to_productos` (`app/main.py` lines 86–108): the append loop over
the rows, preserving order. -/
def map_rows_to_productos : List Row → List ProductoDB
  | [] => []
  | row :: rest => rowToProductoDB row :: map_rows_to_productos rest

/-- FastAPI `response_model=Producto` re-validation of a returned
`ProductoDB`: the strict `Producto` constructor runs on its fields. -/
def validarRespuesta (db : ProductoDB) : Option Producto :=
  (validarProductoBase db.campos).map fun f => { id_producto := db.id_producto, campos := f }

/-- Elementwise `response_model=List[Producto]` re-validation: every element
must pass the strict constructor. -/
def validarRespuestaLista : List ProductoDB → Option (List Producto)
  | [] => some []
  | db :: rest =>
    match validarRespuesta db, validarRespuestaLista rest with
    | some p, some ps => some (p :: ps)
    | _, _ => none

/-- One store call issued by a handler, in order, with the arguments the
handler passed. -/
inductive StoreCall where
  | fetchAll
  | fetchById (producto_id : Int)
  | insert (campos : ProductoFields)
  | update (producto_id : Int) (campos : ProductoFields)
  | delete (producto_id : Int)
deriving DecidableEq, Repr

/-- The client-visible failure of a request: a 404 with its detail message, a
422 body-validation failure, a 500 with its detail message, or an unhandled
`IndexError` escaping the handler (which FastAPI would also surface as a
500, kept separate here because it is a distinct code path). -/
inductive ApiError where
  | notFound (producto_id : Int) (detail : String)
  | validationError
  | serverError (detail : String)
  | indexError
deriving DecidableEq, Repr

/-- The 404 detail string built from the requested id: `Producto con ID`,
the id, `no encontrado`. -/
def detalleNoEncontrado (producto_id : Int) : String :=
  "Producto con ID " ++ toString producto_id ++ " no encontrado"

/-- Build the response from a mapped row through the `response_model`
re-validation; a row that fails the strict constructor is a 500. -/
def respuesta (db : ProductoDB) : Except ApiError Producto :=
  match validarRespuesta db with
  | some p => .ok p
  | none => .error (.serverError "Internal Server Error")

/-- The confirmation body returned by Delete: a `mensaje` text and the
`id_producto` it acted on. -/
structure RespuestaEliminacion where
  mensaje : String
  id_producto : Int
deriving DecidableEq, Repr

/-- `listar_productos` (`app/main.py` lines 121–138): fetch all rows, adapt
them, return them through `response_model=List[Producto]`. -/
def listar_productos (rows : List Row) :
    Except ApiError (List Producto) × List StoreCall :=
  let productos_db := map_rows_to_productos rows
  (match validarRespuestaLista productos_db with
   | some ps => .ok ps
   | none => .error (.serverError "Internal Server Error"),
   [.fetchAll])

/-- `obtener_producto` (`app/main.py` lines 141–165): fetch by id, 404 when
absent, else adapt the single row and return `productos_db[0]` through the
response model.  `row` is the value `fetch_producto_by_id` returns. -/
def obtener_producto (producto_id : Int) (row : Option Row) :
    Except ApiError Producto × List StoreCall :=
  match row with
  | none =>
    (.error (.notFound producto_id (detalleNoEncontrado producto_id)),
     [.fetchById producto_id])
  | some r =>
    let productos_db := map_rows_to_productos [r]
    (match productos_db[0]? with
     | none => .error .indexError
     | some db => respuesta db,
     [.fetchById producto_id])

/-- `crear_producto` (`app/main.py` lines 168–206), given an already
body-validated payload: insert (the store answers `nuevo_id`), 500 when the
id is falsy, re-fetch the created row (the store answers `row`), 500 when
absent, else adapt and return `productos_db[0]` through the response
model. -/
def crear_producto (producto : ProductoFields) (nuevo_id : Int) (row : Option Row) :
    Except ApiError Producto × List StoreCall :=
  if nuevo_id = 0 then
    (.error (.serverError "Error al insertar el producto en la base de datos"),
     [.insert producto])
  else
    match row with
    | none =>
      (.error (.serverError "Error al recuperar el producto recién creado"),
       [.insert producto, .fetchById nuevo_id])
    | some r =>
      let productos_db := map_rows_to_productos [r]
      (match productos_db[0]? with
       | none => .error .indexError
       | some db => respuesta db,
       [.insert producto, .fetchById nuevo_id])

/-- `actualizar_producto` (`app/main.py` lines 209–258), given an already
body-validated payload: existence check (404 when absent), update (500 when
the store reports failure), re-read (500 when absent), else adapt and return
`productos_db[0]` through the response model. -/
def actualizar_producto (producto_id : Int) (producto : ProductoFields)
    (row_existente : Option Row) (actualizado : Bool) (row_actualizado : Option Row) :
    Except ApiError Producto × List StoreCall :=
  match row_existente with
  | none =>
    (.error (.notFound producto_id (detalleNoEncontrado producto_id)),
     [.fetchById producto_id])
  | some _ =>
    if actualizado then
      match row_actualizado with
      | none =>
        (.error (.serverError "Error al recuperar el producto actualizado"),
         [.fetchById producto_id, .update producto_id producto, .fetchById producto_id])
      | some r =>
        let productos_db := map_rows_to_productos [r]
        (match productos_db[0]? with
         | none => .error .indexError
         | some db => respuesta db,
         [.fetchById producto_id, .update producto_id producto, .fetchById producto_id])
    else
      (.error (.serverError "Error al actualizar el producto en la base de datos"),
       [.fetchById producto_id, .update producto_id producto])

/-- `eliminar_producto` (`app/main.py` lines 261–293): existence check (404
when absent), delete (500 when the store reports failure), else the static
confirmation body echoing the id. -/
def eliminar_producto (producto_id : Int) (row_existente : Option Row) (eliminado : Bool) :
    Except ApiError RespuestaEliminacion × List StoreCall :=
  match row_existente with
  | none =>
    (.error (.notFound producto_id (detalleNoEncontrado producto_id)),
     [.fetchById producto_id])
  | some _ =>
    if eliminado then
      (.ok { mensaje := "Producto eliminado exitosamente", id_producto := producto_id },
       [.fetchById producto_id, .delete producto_id])
    else
      (.error (.serverError "Error al eliminar el producto de la base de datos"),
       [.fetchById producto_id, .delete producto_id])

/-- The POST endpoint as FastAPI runs it: the request body is validated
through `ProductoCreate` before the handler body executes; a validation
failure is a 422 and no store call happens. -/
def crear_endpoint (payload : ProductoFields) (nuevo_id : Int) (row : Option Row) :
    Except ApiError Producto × List StoreCall :=
  match validarProductoBase payload with
  | none => (.error .validationError, [])
  | some producto => crear_producto producto nuevo_id row

/-- The PUT endpoint as FastAPI runs it: body validation through
`ProductoUpdate` before the handler body executes; a validation failure is a
422 and no store call happens. -/
def actualizar_endpoint (producto_id : Int) (payload : ProductoFields)
    (row_existente : Option Row) (actualizado : Bool) (row_actualizado : Option Row) :
    Except ApiError Producto × List StoreCall :=
  match validarProductoBase payload with
  | none => (.error .validationError, [])
  | some producto =>
    actualizar_producto producto_id producto row_existente actualizado row_actualizado

/-- Whether a handler outcome is the unhandled-`IndexError` path. -/
def esIndexError {α : Type} : Except ApiError α → Bool
  | .error .indexError => true
  | _ => false

/-- A sample persisted row whose columns already satisfy every strict rule. -/
def filaEjemplo : Row :=
  { id_producto := 7, nombre := "Martillo", descripcion := none, precio := .flt 1,
    stock := 10, categoria := "Herramientas", codigo_sku := "MRT-01",
    activo := some (.pybool true) }

/-- The strict entity produced from `filaEjemplo`. -/
def productoEjemplo : Producto :=
  { id_producto := 7,
    campos := { nombre := "Martillo", descripcion := none, precio := 1, stock := 10,
                categoria := "Herramientas", codigo_sku := "MRT-01", activo := true } }

/-- A sample persisted row with legacy data violating the strict rules
(negative stock). -/
def filaInvalida : Row :=
  { id_producto := 1, nombre := "Martillo", descripcion := none, precio := .flt 1,
    stock := -1, categoria := "Herramientas", codigo_sku := "MRT-01",
    activo := some (.pybool true) }

/-- A sample already-normalised field bundle. -/
def camposEjemplo : ProductoFields :=
  { nombre := "Martillo", descripcion := none, precio := 1, stock := 10,
    categoria := "Herramientas", codigo_sku := "MRT-01", activo := true }

example :
    validarProductoBase
      { nombre := "Martillo", descripcion := some " ", precio := 1,
        stock := 10, categoria := "Herramientas", codigo_sku := " mrt-01 " }
      = some { nombre := "Martillo", descripcion := none, precio := 1,
               stock := 10, categoria := "Herramientas", codigo_sku := "MRT-01" } := by
  decide

/-! ### Facts about the Python string primitives -/

theorem dropWhile_pyStripList (l : List Char) :
    (pyStripList l).dropWhile isPySpace = pyStripList l := by
  rw [List.dropWhile_eq_self_iff]
  intro hl
  have hpre : (l.dropWhile isPySpace).rdropWhile isPySpace <+: l.dropWhile isPySpace :=
    List.rdropWhile_prefix _ _
  have hlt : 0 < (l.dropWhile isPySpace).length :=
    Nat.lt_of_lt_of_le hl hpre.length_le
  have hget := List.IsPrefix.getElem hpre (n := 0) (by simpa [pyStripList] using hl)
  have hnot := List.dropWhile_get_zero_not isPySpace l hlt
  simp only [List.get_eq_getElem, pyStripList] at *
  rw [hget]
  simpa using hnot

theorem rdropWhile_pyStripList (l : List Char) :
    (pyStripList l).rdropWhile isPySpace = pyStripList l :=
  List.rdropWhile_idempotent _ _

theorem pyStripList_eq_self {l : List Char}
    (h1 : l.dropWhile isPySpace = l) (h2 : l.rdropWhile isPySpace = l) :
    pyStripList l = l := by
  rw [pyStripList, h1, h2]

theorem pyStripList_idem (l : List Char) :
    pyStripList (pyStripList l) = pyStripList l :=
  pyStripList_eq_self (dropWhile_pyStripList l) (rdropWhile_pyStripList l)

theorem pyStrip_idem (s : String) : pyStrip (pyStrip s) = pyStrip s :=
  congrArg String.mk (pyStripList_idem s.data)

theorem pyStripList_length_le (l : List Char) :
    (pyStripList l).length ≤ l.length :=
  Nat.le_trans (List.rdropWhile_prefix _ _).length_le (List.dropWhile_suffix _).length_le

theorem pyStrip_length_le (s : String) : (pyStrip s).length ≤ s.length :=
  pyStripList_length_le s.data

theorem pyToUpper_classify (c : Char) :
    pyToUpper c = c ∨ (c, pyToUpper c) ∈ upperPairs := by
  unfold pyToUpper
  split
  all_goals first
  | (left; rfl)
  | (right; decide)

theorem upperPairs_space_all :
    (upperPairs.all fun p => isPySpace p.2 == isPySpace p.1) = true := by
  decide

theorem upperPairs_fixed_all :
    (upperPairs.all fun p => pyToUpper p.2 == p.2) = true := by
  decide

theorem upperPairs_space (p : Char × Char) (hp : p ∈ upperPairs) :
    isPySpace p.2 = isPySpace p.1 := by
  have := List.all_eq_true.mp upperPairs_space_all p hp
  simpa using this

theorem upperPairs_fixed (p : Char × Char) (hp : p ∈ upperPairs) :
    pyToUpper p.2 = p.2 := by
  have := List.all_eq_true.mp upperPairs_fixed_all p hp
  simpa using this

theorem isPySpace_pyToUpper (c : Char) :
    isPySpace (pyToUpper c) = isPySpace c := by
  rcases pyToUpper_classify c with h | h
  · rw [h]
  · exact upperPairs_space _ h

theorem pyToUpper_idem (c : Char) : pyToUpper (pyToUpper c) = pyToUpper c := by
  rcases pyToUpper_classify c with h | h
  · rw [h]
    exact h
  · exact upperPairs_fixed _ h

theorem pyUpper_idem (s : String) : pyUpper (pyUpper s) = pyUpper s := by
  unfold pyUpper
  refine congrArg String.mk ?_
  show (s.data.map pyToUpper).map pyToUpper = s.data.map pyToUpper
  rw [List.map_map]
  exact List.map_congr_left fun a _ => pyToUpper_idem a

theorem pyUpper_length (s : String) : (pyUpper s).length = s.length :=
  List.length_map _ _

theorem data_eq_nil_iff (s : String) : s.data = [] ↔ s = "" := by
  cases s with
  | mk data =>
    constructor
    · intro h
      subst h
      rfl
    · intro h
      rw [h]

theorem length_pos_of_ne_empty {s : String} (h : s ≠ "") : 1 ≤ s.length := by
  have : s.data ≠ [] := fun hd => h ((data_eq_nil_iff s).mp hd)
  have := List.length_pos.mpr this
  exact this

theorem pyUpper_eq_empty_iff (s : String) : pyUpper s = "" ↔ s = "" := by
  constructor
  · intro h
    have hdata : s.data.map pyToUpper = [] := congrArg String.data h
    have : s.data = [] := List.map_eq_nil_iff.mp hdata
    exact (data_eq_nil_iff s).mp this
  · intro h
    cases h
    rfl

theorem pyStripList_map_pyToUpper (l : List Char) :
    pyStripList ((pyStripList l).map pyToUpper) = (pyStripList l).map pyToUpper := by
  apply pyStripList_eq_self
  · rw [List.dropWhile_eq_self_iff]
    intro hl
    have hl' : 0 < (pyStripList l).length := by simpa using hl
    have hget : ((pyStripList l).map pyToUpper).get ⟨0, hl⟩
        = pyToUpper ((pyStripList l).get ⟨0, hl'⟩) := by
      simp
    rw [hget, isPySpace_pyToUpper]
    have := (List.dropWhile_eq_self_iff).mp (dropWhile_pyStripList l) hl'
    simpa using this
  · rw [List.rdropWhile_eq_self_iff]
    intro hl
    have hl' : pyStripList l ≠ [] := by
      intro h
      exact hl (by rw [h]; rfl)
    have hlast := (List.rdropWhile_eq_self_iff).mp (rdropWhile_pyStripList l) hl'
    have h1 : ((pyStripList l).map pyToUpper).getLast? =
        some (((pyStripList l).map pyToUpper).getLast hl) :=
      List.getLast?_eq_getLast_of_ne_nil hl
    rw [List.getLast?_map, List.getLast?_eq_getLast_of_ne_nil hl'] at h1
    simp only [Option.map_some', Option.some.injEq] at h1
    rw [← h1, isPySpace_pyToUpper]
    simpa using hlast

theorem pyStrip_pyUpper_pyStrip (s : String) :
    pyStrip (pyUpper (pyStrip s)) = pyUpper (pyStrip s) :=
  congrArg String.mk (pyStripList_map_pyToUpper s.data)

theorem pyStrip_empty : pyStrip "" = "" := rfl

/-! ### Characterisations of the field pipelines -/

theorem validar_nombre_categoria_eq (v : String) :
    validar_nombre_categoria v =
      if pyStrip v = "" then none else some (pyStrip v) := by
  unfold validar_nombre_categoria
  by_cases h : pyStrip v = ""
  · simp [h]
  · have hv : v ≠ "" := fun hv => h (by rw [hv]; rfl)
    simp [h, hv]

theorem stripPipeline_eq (k : Nat) (v : String) :
    (if 1 ≤ v.length ∧ v.length ≤ k then validar_nombre_categoria v else none)
      = if v.length ≤ k ∧ pyStrip v ≠ "" then some (pyStrip v) else none := by
  rw [validar_nombre_categoria_eq]
  by_cases hs : pyStrip v = ""
  · simp [hs]
  · have h1 : 1 ≤ v.length := length_pos_of_ne_empty (fun hv => hs (by rw [hv]; rfl))
    by_cases hl : v.length ≤ k
    · simp [hs, h1, hl]
    · simp [hs, h1, hl]

theorem validarNombreCampo_eq (v : String) :
    validarNombreCampo v =
      if v.length ≤ 80 ∧ pyStrip v ≠ "" then some (pyStrip v) else none :=
  stripPipeline_eq 80 v

theorem validarCategoriaCampo_eq (v : String) :
    validarCategoriaCampo v =
      if v.length ≤ 50 ∧ pyStrip v ≠ "" then some (pyStrip v) else none :=
  stripPipeline_eq 50 v

theorem validar_codigo_sku_eq (v : String) :
    validar_codigo_sku v =
      if pyStrip v = "" then none else some (pyUpper (pyStrip v)) := by
  unfold validar_codigo_sku
  by_cases h : pyStrip v = ""
  · rw [h]
    decide
  · have hu : pyUpper (pyStrip v) ≠ "" := fun hu => h ((pyUpper_eq_empty_iff _).mp hu)
    simp [h, hu]

theorem validarCodigoSkuCampo_eq (v : String) :
    validarCodigoSkuCampo v =
      if v.length ≤ 20 ∧ pyStrip v ≠ "" then some (pyUpper (pyStrip v)) else none := by
  unfold validarCodigoSkuCampo
  rw [validar_codigo_sku_eq]
  by_cases hs : pyStrip v = ""
  · simp [hs]
  · have h1 : 1 ≤ v.length := length_pos_of_ne_empty (fun hv => hs (by rw [hv]; rfl))
    by_cases hl : v.length ≤ 20
    · simp [hs, h1, hl]
    · simp [hs, h1, hl]

/-! ### Idempotence of each field pipeline -/

theorem stripPipeline_idem (k : Nat) {v m : String}
    (h : (if v.length ≤ k ∧ pyStrip v ≠ "" then some (pyStrip v) else none) = some m) :
    (if m.length ≤ k ∧ pyStrip m ≠ "" then some (pyStrip m) else none) = some m := by
  split at h
  · next hc =>
    injection h with h'
    subst h'
    rw [pyStrip_idem]
    have hlen : (pyStrip v).length ≤ k := le_trans (pyStrip_length_le v) hc.1
    rw [if_pos ⟨hlen, hc.2⟩]
  · exact absurd h (by simp)

theorem validarNombreCampo_idem {v m : String} (h : validarNombreCampo v = some m) :
    validarNombreCampo m = some m := by
  rw [validarNombreCampo_eq] at h ⊢
  exact stripPipeline_idem 80 h

theorem validarCategoriaCampo_idem {v m : String} (h : validarCategoriaCampo v = some m) :
    validarCategoriaCampo m = some m := by
  rw [validarCategoriaCampo_eq] at h ⊢
  exact stripPipeline_idem 50 h

theorem validarCodigoSkuCampo_idem {v m : String} (h : validarCodigoSkuCampo v = some m) :
    validarCodigoSkuCampo m = some m := by
  rw [validarCodigoSkuCampo_eq] at h ⊢
  split at h
  · next hc =>
    injection h with h'
    subst h'
    rw [pyStrip_pyUpper_pyStrip, pyUpper_idem]
    have hlen : (pyUpper (pyStrip v)).length ≤ 20 := by
      rw [pyUpper_length]
      exact le_trans (pyStrip_length_le v) hc.1
    have hne : pyUpper (pyStrip v) ≠ "" := fun hu => hc.2 ((pyUpper_eq_empty_iff _).mp hu)
    rw [if_pos ⟨hlen, hne⟩]
  · exact absurd h (by simp)

theorem validarDescripcionCampo_idem {v m : Option String}
    (h : validarDescripcionCampo v = some m) :
    validarDescripcionCampo m = some m := by
  cases v with
  | none =>
    have h1 : some (none : Option String) = some m := h
    injection h1 with h'
    subst h'
    rfl
  | some s =>
    have h2 : (if s.length ≤ 255 then validar_descripcion (some s) else none) = some m := h
    by_cases hl : s.length ≤ 255
    · rw [if_pos hl] at h2
      have h3 : (if pyStrip s = "" then some none
          else some (some (pyStrip s))) = some m := h2
      by_cases hs : pyStrip s = ""
      · rw [if_pos hs] at h3
        injection h3 with h'
        subst h'
        rfl
      · rw [if_neg hs] at h3
        injection h3 with h'
        subst h'
        have hl2 : (pyStrip s).length ≤ 255 := le_trans (pyStrip_length_le s) hl
        show (if (pyStrip s).length ≤ 255
            then validar_descripcion (some (pyStrip s)) else none) = _
        rw [if_pos hl2]
        show (if pyStrip (pyStrip s) = "" then some none
            else some (some (pyStrip (pyStrip s)))) = _
        rw [pyStrip_idem, if_neg hs]
    · rw [if_neg hl] at h2
      exact absurd h2 (by simp)

theorem validarPrecioCampo_idem {v m : ℚ} (h : validarPrecioCampo v = some m) :
    validarPrecioCampo m = some m := by
  unfold validarPrecioCampo at h ⊢
  split at h
  · next h0 =>
    injection h with h'
    subst h'
    rw [if_pos h0]
  · exact absurd h (by simp)

theorem validarStockCampo_idem {v m : Int} (h : validarStockCampo v = some m) :
    validarStockCampo m = some m := by
  unfold validarStockCampo at h ⊢
  split at h
  · next h0 =>
    injection h with h'
    subst h'
    rw [if_pos h0]
  · exact absurd h (by simp)

/-! ### Introduction and inversion for the model constructor -/

theorem validarProductoBase_mk {p : ProductoFields} {n : String} {d : Option String}
    {pr : ℚ} {st : Int} {cat sku : String}
    (hn : validarNombreCampo p.nombre = some n)
    (hd : validarDescripcionCampo p.descripcion = some d)
    (hpr : validarPrecioCampo p.precio = some pr)
    (hst : validarStockCampo p.stock = some st)
    (hcat : validarCategoriaCampo p.categoria = some cat)
    (hsku : validarCodigoSkuCampo p.codigo_sku = some sku) :
    validarProductoBase p =
      some { nombre := n, descripcion := d, precio := pr, stock := st,
             categoria := cat, codigo_sku := sku, activo := p.activo } := by
  unfold validarProductoBase
  rw [hn, hd, hpr, hst, hcat, hsku]

theorem validarProductoBase_inv {p m : ProductoFields}
    (h : validarProductoBase p = some m) :
    validarNombreCampo p.nombre = some m.nombre ∧
    validarDescripcionCampo p.descripcion = some m.descripcion ∧
    validarPrecioCampo p.precio = some m.precio ∧
    validarStockCampo p.stock = some m.stock ∧
    validarCategoriaCampo p.categoria = some m.categoria ∧
    validarCodigoSkuCampo p.codigo_sku = some m.codigo_sku ∧
    m.activo = p.activo := by
  unfold validarProductoBase at h
  cases hn : validarNombreCampo p.nombre with
  | none => rw [hn] at h; simp at h
  | some n =>
  rw [hn] at h
  cases hd : validarDescripcionCampo p.descripcion with
  | none => rw [hd] at h; simp at h
  | some d =>
  rw [hd] at h
  cases hpr : validarPrecioCampo p.precio with
  | none => rw [hpr] at h; simp at h
  | some pr =>
  rw [hpr] at h
  cases hst : validarStockCampo p.stock with
  | none => rw [hst] at h; simp at h
  | some st =>
  rw [hst] at h
  cases hcat : validarCategoriaCampo p.categoria with
  | none => rw [hcat] at h; simp at h
  | some cat =>
  rw [hcat] at h
  cases hsku : validarCodigoSkuCampo p.codigo_sku with
  | none => rw [hsku] at h; simp at h
  | some sku =>
  rw [hsku] at h
  injection h with h'
  subst h'
  exact ⟨rfl, rfl, rfl, rfl, rfl, rfl, rfl⟩

/-! ### The claims -/

/-- C4: for every id the store reports absent, the Get, Update and Delete
handlers return the 404 outcome with the id echoed in the detail message,
never a server fault, and their store-call trace is the single existence
fetch — in particular no `update` or `delete` store call is issued. -/
theorem claim_C4_ausente_not_found (producto_id : Int) (producto : ProductoFields)
    (actualizado : Bool) (row_actualizado : Option Row) (eliminado : Bool) :
    obtener_producto producto_id none
      = (.error (.notFound producto_id (detalleNoEncontrado producto_id)),
         [.fetchById producto_id]) ∧
    actualizar_producto producto_id producto none actualizado row_actualizado
      = (.error (.notFound producto_id (detalleNoEncontrado producto_id)),
         [.fetchById producto_id]) ∧
    eliminar_producto producto_id none eliminado
      = (.error (.notFound producto_id (detalleNoEncontrado producto_id)),
         [.fetchById producto_id]) :=
  ⟨rfl, rfl, rfl⟩

/-- C8: strict validation is idempotent — re-validating the normalised bundle
produced by a successful validation succeeds and returns it unchanged. -/
theorem claim_C8_idempotencia {p m : ProductoFields}
    (h : validarProductoBase p = some m) :
    validarProductoBase m = some m := by
  obtain ⟨hn, hd, hpr, hst, hcat, hsku, hact⟩ := validarProductoBase_inv h
  exact validarProductoBase_mk (validarNombreCampo_idem hn)
    (validarDescripcionCampo_idem hd) (validarPrecioCampo_idem hpr)
    (validarStockCampo_idem hst) (validarCategoriaCampo_idem hcat)
    (validarCodigoSkuCampo_idem hsku)

/-- Witness for C8 at a concrete payload: its normalisation re-validates to
itself. -/
theorem claim_C8_idempotencia_witness :
    validarProductoBase camposEjemplo = some camposEjemplo :=
  @claim_C8_idempotencia
    { nombre := " Martillo ", descripcion := some " ", precio := 1, stock := 10,
      categoria := "Herramientas", codigo_sku := " mrt-01 " }
    camposEjemplo (by decide)

/-- C9: the raw-row adapter maps the rows in order (empty input giving empty
output); per row, a `Decimal` price is coerced through `float`, `activo` is
coerced through truthiness with an absent value giving `false`, and every
other column passes through unchanged. -/
theorem claim_C9_adaptador (rows : List Row) (row : Row) :
    map_rows_to_productos rows = rows.map rowToProductoDB ∧
    map_rows_to_productos [] = [] ∧
    (rowToProductoDB row).precio =
      (match row.precio with
       | .dec q => floatOfDecimal q
       | .flt q => q) ∧
    (rowToProductoDB row).activo =
      (match row.activo with
       | none => false
       | some v => v.truthy) ∧
    (rowToProductoDB row).id_producto = row.id_producto ∧
    (rowToProductoDB row).nombre = row.nombre ∧
    (rowToProductoDB row).descripcion = row.descripcion ∧
    (rowToProductoDB row).stock = row.stock ∧
    (rowToProductoDB row).categoria = row.categoria ∧
    (rowToProductoDB row).codigo_sku = row.codigo_sku := by
  refine ⟨?_, rfl, rfl, rfl, rfl, rfl, rfl, rfl, rfl, rfl⟩
  induction rows with
  | nil => rfl
  | cons r rest ih => simp [map_rows_to_productos, ih]

/-- C5 fails on the code: a name whose trimmed form is non-empty and of
length 80 is nevertheless rejected, because `max_length=80` is checked on
the raw string (here of length 81) before trimming. -/
theorem claim_C5_counterexample :
    (pyStrip (String.mk (' ' :: List.replicate 80 'a')) ≠ "" ∧
      (pyStrip (String.mk (' ' :: List.replicate 80 'a'))).length ≤ 80) ∧
    validarNombreCampo (String.mk (' ' :: List.replicate 80 'a')) = none := by
  decide

/-- C5 amended: `name` (resp. `category`) is accepted iff its trimmed form is
non-empty and its RAW length is at most 80 (resp. 50); the stored value is
the trimmed string.  Acceptance therefore depends on the raw length, not
only on the length after trimming. -/
theorem claim_C5_nombre_categoria (v : String) :
    validarNombreCampo v
      = (if v.length ≤ 80 ∧ pyStrip v ≠ "" then some (pyStrip v) else none) ∧
    validarCategoriaCampo v
      = (if v.length ≤ 50 ∧ pyStrip v ≠ "" then some (pyStrip v) else none) :=
  ⟨validarNombreCampo_eq v, validarCategoriaCampo_eq v⟩

/-- C7: the Create scenario from the spec — description `" "` normalises to
absent and sku `" mrt-01 "` is stored as `"MRT-01"` — and, in general, every
accepted sku is stored as the trimmed upper-cased input. -/
theorem claim_C7_sku_descripcion :
    validarProductoBase
      { nombre := "Martillo", descripcion := some " ", precio := 15.5,
        stock := 10, categoria := "Herramientas", codigo_sku := " mrt-01 " }
      = some { nombre := "Martillo", descripcion := none, precio := 15.5,
               stock := 10, categoria := "Herramientas", codigo_sku := "MRT-01" } ∧
    ∀ v m : String, validarCodigoSkuCampo v = some m → m = pyUpper (pyStrip v) := by
  constructor
  · have hp : validarPrecioCampo 15.5 = some 15.5 := by
      unfold validarPrecioCampo
      rw [if_pos]
      norm_num
    exact validarProductoBase_mk (by decide) (by decide) hp (by decide)
      (by decide) (by decide)
  · intro v m h
    rw [validarCodigoSkuCampo_eq] at h
    split at h
    · injection h with h'
      exact h'.symm
    · exact absurd h (by simp)

/-- Witness for C7's universally quantified part at the scenario's sku. -/
theorem claim_C7_sku_descripcion_witness :
    ("MRT-01" : String) = pyUpper (pyStrip " mrt-01 ") :=
  claim_C7_sku_descripcion.2 " mrt-01 " "MRT-01" (by decide)

set_option maxRecDepth 8000 in
/-- C1 fails on the code: a 256-character description is rejected by the
`max_length=255` constraint, so description validation is not
failure-free. -/
theorem claim_C1_counterexample :
    validarDescripcionCampo (some (String.mk (List.replicate 256 'a'))) = none ∧
    validarProductoBase
      { nombre := "Martillo",
        descripcion := some (String.mk (List.replicate 256 'a')),
        precio := 1, stock := 10, categoria := "Herramientas",
        codigo_sku := "MRT-01" }
      = none := by
  decide

theorem validarDescripcionCampo_some (s : String) :
    validarDescripcionCampo (some s) =
      if s.length ≤ 255 then
        (if pyStrip s = "" then some none else some (some (pyStrip s)))
      else none := rfl

/-- C1 amended: description validation fails exactly when the raw string is
longer than 255 characters; within that bound it never fails, normalising an
absent or whitespace-only value to absent and otherwise storing the trimmed
string. -/
theorem claim_C1_descripcion (s : String) :
    validarDescripcionCampo none = some none ∧
    ((validarDescripcionCampo (some s)).isSome ↔ s.length ≤ 255) ∧
    (s.length ≤ 255 → validarDescripcionCampo (some s)
        = (if pyStrip s = "" then some none else some (some (pyStrip s)))) := by
  refine ⟨rfl, ?_, ?_⟩
  · rw [validarDescripcionCampo_some]
    by_cases hl : s.length ≤ 255
    · rw [if_pos hl]
      by_cases hs : pyStrip s = "" <;> simp [hs, hl]
    · rw [if_neg hl]
      simp [hl]
  · intro hl
    rw [validarDescripcionCampo_some, if_pos hl]

/-- Witness for C1's bounded-length part at a concrete description. -/
theorem claim_C1_descripcion_witness :
    validarDescripcionCampo (some " desc ")
      = (if pyStrip " desc " = "" then some none
         else some (some (pyStrip " desc "))) :=
  (claim_C1_descripcion " desc ").2.2 (by decide)

/-- C10: the adapter preserves the length of its input, and consequently the
`productos_db[0]` access in the Get, Create and Update handlers is always in
bounds — no handler outcome is ever the `IndexError` path. -/
theorem claim_C10_indexacion (rows : List Row) (producto_id nuevo_id : Int)
    (producto : ProductoFields) (f1 f2 : Option Row) (actualizado : Bool) :
    (map_rows_to_productos rows).length = rows.length ∧
    esIndexError (obtener_producto producto_id f1).1 = false ∧
    esIndexError (crear_producto producto nuevo_id f1).1 = false ∧
    esIndexError (actualizar_producto producto_id producto f1 actualizado f2).1
      = false := by
  refine ⟨?_, ?_, ?_, ?_⟩
  · induction rows with
    | nil => rfl
    | cons r rest ih => simp [map_rows_to_productos, ih]
  · cases f1 with
    | none => rfl
    | some r =>
      show esIndexError (respuesta (rowToProductoDB r)) = false
      unfold respuesta
      cases validarRespuesta (rowToProductoDB r) <;> rfl
  · unfold crear_producto
    split
    · rfl
    · cases f1 with
      | none => rfl
      | some r =>
        show esIndexError (respuesta (rowToProductoDB r)) = false
        unfold respuesta
        cases validarRespuesta (rowToProductoDB r) <;> rfl
  · cases f1 with
    | none => rfl
    | some r0 =>
      cases actualizado with
      | false => rfl
      | true =>
        cases f2 with
        | none => rfl
        | some r =>
          show esIndexError (respuesta (rowToProductoDB r)) = false
          unfold respuesta
          cases validarRespuesta (rowToProductoDB r) <;> rfl

/-- C6: a Create or Update payload whose name, category or sku is empty or
whitespace-only fails body validation with a 422 and the endpoint issues no
store call at all. -/
theorem claim_C6_vacios (payload : ProductoFields) (nuevo_id : Int)
    (row f1 f2 : Option Row) (producto_id : Int) (actualizado : Bool)
    (h : pyStrip payload.nombre = "" ∨ pyStrip payload.categoria = "" ∨
         pyStrip payload.codigo_sku = "") :
    crear_endpoint payload nuevo_id row = (.error .validationError, []) ∧
    actualizar_endpoint producto_id payload f1 actualizado f2
      = (.error .validationError, []) := by
  have hv : validarProductoBase payload = none := by
    cases hvp : validarProductoBase payload with
    | none => rfl
    | some m =>
      obtain ⟨hn, -, -, -, hcat, hsku, -⟩ := validarProductoBase_inv hvp
      rcases h with h | h | h
      · rw [validarNombreCampo_eq, h] at hn
        simp at hn
      · rw [validarCategoriaCampo_eq, h] at hcat
        simp at hcat
      · rw [validarCodigoSkuCampo_eq, h] at hsku
        simp at hsku
  constructor
  · unfold crear_endpoint
    rw [hv]
  · unfold actualizar_endpoint
    rw [hv]

/-- Witness for C6 at a whitespace-only name. -/
theorem claim_C6_vacios_witness :
    crear_endpoint
      { nombre := " ", descripcion := none, precio := 1, stock := 1,
        categoria := "Herramientas", codigo_sku := "MRT-01" } 1 none
      = (.error .validationError, []) ∧
    actualizar_endpoint 1
      { nombre := " ", descripcion := none, precio := 1, stock := 1,
        categoria := "Herramientas", codigo_sku := "MRT-01" } none false none
      = (.error .validationError, []) :=
  claim_C6_vacios
    { nombre := " ", descripcion := none, precio := 1, stock := 1,
      categoria := "Herramientas", codigo_sku := "MRT-01" }
    1 none none none 1 false (Or.inl (by decide))

theorem validarRespuestaLista_map (rows : List Row) :
    validarRespuestaLista (map_rows_to_productos rows)
      = rows.mapM (fun r => validarRespuesta (rowToProductoDB r)) := by
  induction rows with
  | nil => rfl
  | cons r rest ih =>
    rw [List.mapM_cons]
    show (match validarRespuesta (rowToProductoDB r),
        validarRespuestaLista (map_rows_to_productos rest) with
      | some p, some ps => some (p :: ps)
      | _, _ => none) = _
    rw [ih]
    cases validarRespuesta (rowToProductoDB r) with
    | none => rfl
    | some p =>
      cases rest.mapM (fun r => validarRespuesta (rowToProductoDB r)) with
      | none => rfl
      | some ps => rfl

theorem validarRespuestaLista_none {rows : List Row}
    (h : ∃ r ∈ rows, validarRespuesta (rowToProductoDB r) = none) :
    validarRespuestaLista (map_rows_to_productos rows) = none := by
  induction rows with
  | nil =>
    obtain ⟨r, hr, -⟩ := h
    exact absurd hr (List.not_mem_nil r)
  | cons a rest ih =>
    obtain ⟨r, hr, hnone⟩ := h
    rw [List.mem_cons] at hr
    show (match validarRespuesta (rowToProductoDB a),
        validarRespuestaLista (map_rows_to_productos rest) with
      | some p, some ps => some (p :: ps)
      | _, _ => none) = none
    rcases hr with rfl | hr
    · rw [hnone]
    · rw [ih ⟨r, hr, hnone⟩]
      cases validarRespuesta (rowToProductoDB a) <;> rfl

/-- C3: List and Get re-validate every outbound value through the strict
constructor — any row whose adapted value fails a strict rule turns the read
into a server fault, and when every row passes, the endpoint returns exactly
the strict normalisations. -/
theorem claim_C3_revalidacion (rows : List Row) (producto_id : Int) (row : Row) :
    ((∃ r ∈ rows, validarRespuesta (rowToProductoDB r) = none) →
      (listar_productos rows).1 = .error (.serverError "Internal Server Error")) ∧
    (∀ l, rows.mapM (fun r => validarRespuesta (rowToProductoDB r)) = some l →
      (listar_productos rows).1 = .ok l) ∧
    (validarRespuesta (rowToProductoDB row) = none →
      (obtener_producto producto_id (some row)).1
        = .error (.serverError "Internal Server Error")) ∧
    (∀ p, validarRespuesta (rowToProductoDB row) = some p →
      (obtener_producto producto_id (some row)).1 = .ok p) := by
  refine ⟨?_, ?_, ?_, ?_⟩
  · intro h
    show (match validarRespuestaLista (map_rows_to_productos rows) with
      | some ps => Except.ok ps
      | none => Except.error (ApiError.serverError "Internal Server Error")) = _
    rw [validarRespuestaLista_none h]
  · intro l hl
    show (match validarRespuestaLista (map_rows_to_productos rows) with
      | some ps => Except.ok ps
      | none => Except.error (ApiError.serverError "Internal Server Error")) = _
    rw [validarRespuestaLista_map, hl]
  · intro h
    show respuesta (rowToProductoDB row) = _
    unfold respuesta
    rw [h]
  · intro p hp
    show respuesta (rowToProductoDB row) = _
    unfold respuesta
    rw [hp]

/-- Witness for C3: a legacy row with negative stock faults the List read,
and a row satisfying the rules is returned normalised by Get. -/
theorem claim_C3_revalidacion_witness :
    (listar_productos [filaInvalida]).1
      = .error (.serverError "Internal Server Error") ∧
    (obtener_producto 7 (some filaEjemplo)).1 = .ok productoEjemplo :=
  ⟨(claim_C3_revalidacion [filaInvalida] 7 filaInvalida).1
      ⟨filaInvalida, by simp, by decide⟩,
   (claim_C3_revalidacion [] 7 filaEjemplo).2.2.2 productoEjemplo (by decide)⟩

/-- C2 fails on the code for Delete: a successful delete issues exactly the
existence fetch followed by the delete call — no re-read after the write —
and answers a static confirmation body. -/
theorem claim_C2_counterexample :
    eliminar_producto 1 (some filaEjemplo) true
      = (.ok { mensaje := "Producto eliminado exitosamente", id_producto := 1 },
         [.fetchById 1, .delete 1]) ∧
    (eliminar_producto 1 (some filaEjemplo) true).2.drop 1 = [.delete 1] :=
  ⟨rfl, rfl⟩

/-- C2 amended: Create and Update re-read the row after their write call and
build the success response from that re-read row; Delete checks existence
before its write but performs no post-write re-read, returning the static
confirmation that echoes the id. -/
theorem claim_C2_relectura (producto : ProductoFields) (producto_id nuevo_id : Int)
    (f1 f2 row : Option Row) (actualizado eliminado : Bool)
    (p : Producto) (resp : RespuestaEliminacion) :
    ((crear_producto producto nuevo_id row).1 = .ok p →
      (crear_producto producto nuevo_id row).2
        = [.insert producto, .fetchById nuevo_id] ∧
      row.map (fun rr => validarRespuesta (rowToProductoDB rr)) = some (some p)) ∧
    ((actualizar_producto producto_id producto f1 actualizado f2).1 = .ok p →
      (actualizar_producto producto_id producto f1 actualizado f2).2
        = [.fetchById producto_id, .update producto_id producto,
           .fetchById producto_id] ∧
      f2.map (fun rr => validarRespuesta (rowToProductoDB rr)) = some (some p)) ∧
    ((eliminar_producto producto_id f1 eliminado).1 = .ok resp →
      (eliminar_producto producto_id f1 eliminado).2
        = [.fetchById producto_id, .delete producto_id] ∧
      resp = { mensaje := "Producto eliminado exitosamente",
               id_producto := producto_id }) := by
  refine ⟨?_, ?_, ?_⟩
  · intro h
    unfold crear_producto at h ⊢
    split at h
    · simp at h
    · next hc =>
      cases row with
      | none => simp at h
      | some rr =>
        have hresp : respuesta (rowToProductoDB rr) = .ok p := h
        have hv : validarRespuesta (rowToProductoDB rr) = some p := by
          unfold respuesta at hresp
          cases hvv : validarRespuesta (rowToProductoDB rr) with
          | none =>
            rw [hvv] at hresp
            exact absurd hresp (by simp)
          | some q =>
            rw [hvv] at hresp
            injection hresp with h'
            rw [h']
        constructor
        · simp [hc]
        · simp [hv]
  · intro h
    unfold actualizar_producto at h ⊢
    cases f1 with
    | none => simp at h
    | some r0 =>
      cases actualizado with
      | false => simp at h
      | true =>
        cases f2 with
        | none => simp at h
        | some rr =>
          have hresp : respuesta (rowToProductoDB rr) = .ok p := h
          have hv : validarRespuesta (rowToProductoDB rr) = some p := by
            unfold respuesta at hresp
            cases hvv : validarRespuesta (rowToProductoDB rr) with
            | none =>
              rw [hvv] at hresp
              exact absurd hresp (by simp)
            | some q =>
              rw [hvv] at hresp
              injection hresp with h'
              rw [h']
          constructor
          · rfl
          · simp [hv]
  · intro h
    unfold eliminar_producto at h ⊢
    cases f1 with
    | none => simp at h
    | some r0 =>
      cases eliminado with
      | false => simp at h
      | true =>
        have h1 : Except.ok
            (RespuestaEliminacion.mk "Producto eliminado exitosamente" producto_id)
            = Except.ok resp := h
        injection h1 with h'
        exact ⟨rfl, h'.symm⟩

/-- Witness for C2 at a concrete successful Create. -/
theorem claim_C2_relectura_witness :
    (crear_producto camposEjemplo 7 (some filaEjemplo)).2
      = [.insert camposEjemplo, .fetchById 7] ∧
    (some filaEjemplo).map (fun rr => validarRespuesta (rowToProductoDB rr))
      = some (some productoEjemplo) :=
  (claim_C2_relectura camposEjemplo 0 7 none none (some filaEjemplo) false false
      productoEjemplo ⟨"", 0⟩).1 (by rfl)

end FerreApp
